import Mathlib

/-!
Shallow embedding of the memory-augmented multimodal pipeline
(Next.js route handlers and service classes of the repository).

Modelling conventions:
* Every network round-trip to an external collaborator (R2 object store,
  Workers AI inference, Vectorize index) is an oracle value of type
  `Except String _` supplied through an environment record; `.error`
  models the JS call throwing, `.ok` a successful response already
  parsed to the fields the code reads.
* Each handler returns its JSON response together with a trace of the
  external calls it attempted, in program order.  An event is recorded
  when the call is issued, whether or not it succeeds.
* JS string truthiness (`if (x)`) is modelled by comparison with `""`;
  a `formData.get` field that is absent behaves exactly like the empty
  string under the truthiness tests the code performs, so absent string
  fields are modelled as `""`.  JSON fields tested for `undefined`
  (the chat body) are modelled as `Option`.
* JSON numbers that the code only orders or displays (similarity
  scores, frame timestamps) are modelled as rationals; embedding vector
  entries, which the code never inspects, as integers.
* Byte payloads, base64 conversion and prompt strings that no route
  response or claim observes are not reproduced; the control flow around
  them is.
-/

/-- Substring test used to model the JS `String.prototype.startsWith`-style
check at one position: does `pat` occur at the head of `l`. -/
def charsStart : List Char → List Char → Bool
  | [], _ => true
  | _ :: _, [] => false
  | a :: as, b :: bs => a == b && charsStart as bs

/-- Does `pat` occur anywhere inside `l` (models JS `String.prototype.includes`). -/
def charsContain (pat : List Char) : List Char → Bool
  | [] => pat.isEmpty
  | c :: cs => charsStart pat (c :: cs) || charsContain pat cs

/-- JS `s.includes(pat)`. -/
def strIncludes (s pat : String) : Bool :=
  charsContain pat.toList s.toList

/-- JS chained `a || b || dflt` over strings, where both `undefined` and the
empty string are falsy. -/
def firstTruthy : List (Option String) → String → String
  | [], dflt => dflt
  | o :: rest, dflt =>
    match o with
    | some s => if s = "" then firstTruthy rest dflt else s
    | none => firstTruthy rest dflt

/-- Two-digit rendering of the cents part of a fixed-point number. -/
def pad2 (n : Nat) : String :=
  if n < 10 then "0" ++ toString n else toString n

/-- Models the JS expression `(size / 1024 / 1024).toFixed(2)` used by the
audio route for `fileSizeMB` and the placeholder texts.  Rendered with
round-half-up fixed-point arithmetic; the exact float rounding mode is
immaterial because no claim inspects the digits produced. -/
def fmtMB (size : Nat) : String :=
  let cents := (size * 100 + 524288) / 1048576
  toString (cents / 100) ++ "." ++ pad2 (cents % 100)

/-- Modality tag of a stored memory (the `type` field of `VectorPoint`). -/
inductive MemT
  | text
  | image
  | video
  | audio
deriving DecidableEq, Repr

/-- The fields of a Workers AI JSON response that the code reads:
`response`, `result.response` and (for Whisper) `text`.  `none` models an
absent field. -/
structure AIResponse where
  response : Option String
  resultResponse : Option String
  text : Option String
deriving DecidableEq, Repr

/-- Parsed shape of the embedding endpoint response: the code reads
`result.data?.[0]` and `result.result?.data?.[0]`. -/
structure EmbedResp where
  data : Option (List (List Int))
  resultData : Option (List (List Int))
deriving DecidableEq, Repr

/-- Models `result.data?.[0] || result.result?.data?.[0] || []` from
`CloudflareAI.generateEmbedding`.  Note that a present-but-empty first
vector is truthy in JS (arrays are always truthy) and is returned as-is;
only an absent field falls through to the `[]` default. -/
def extractEmbedding (r : EmbedResp) : List Int :=
  match r.data.bind List.head? with
  | some v => v
  | none =>
    match r.resultData.bind List.head? with
    | some v => v
    | none => []

/-- Metadata fields of a vector match that `retrieveContext` reads; `none`
models a field absent from the open metadata map. -/
structure MemMeta where
  content : Option String
  mtype : Option MemT
  timestamp : Option Nat
deriving DecidableEq, Repr

/-- One entry of `data.result.matches` in the Vectorize query response. -/
structure MatchJson where
  id : String
  score : ℚ
  metadata : Option MemMeta
deriving DecidableEq, Repr

/-- One element of `RAGContext.relevant_memories` as built by
`retrieveContext` (undefined metadata fields propagate as `none`). -/
structure RetrievedMemory where
  content : Option String
  score : ℚ
  mtype : Option MemT
  timestamp : Option Nat
deriving DecidableEq, Repr

/-- External calls a handler can attempt, recorded in program order. -/
inductive ExtEv
  | upload
  | embedCall (text : String)
  | queryCall (topK : Nat)
  | insertCall (values : List Int)
  | chatCall
  | transcribeCall
  | describeCall
deriving DecidableEq, Repr

/-- Oracle for one `RAGService.storeMemory` invocation: outcome of the
embedding call, outcome of the Vectorize insert and the uuid generated
for the new record. -/
structure StoreEnv where
  embed : Except String EmbedResp
  insert : Except String Unit
  newId : String
deriving Repr

/-- Oracle for one `RAGService.retrieveContext` invocation. -/
structure RetrEnv where
  embed : Except String EmbedResp
  vq : Except String (List MatchJson)
deriving Repr

/-- Models `RAGService.storeMemory`: generate the embedding, build the vector
point from whatever vector the extraction yields, insert it.  There is
no dimensionality check anywhere on this path; the modality tag and the
open metadata map ride along inside the inserted point and are not
observed by any claim, so the trace records the inserted vector values. -/
def storeMemory (content : String) (env : StoreEnv) :
    Except String String × List ExtEv :=
  match env.embed with
  | .error e => (.error e, [.embedCall content])
  | .ok resp =>
    let values := extractEmbedding resp
    match env.insert with
    | .error e => (.error e, [.embedCall content, .insertCall values])
    | .ok _ => (.ok env.newId, [.embedCall content, .insertCall values])

/-- Models `options.topK || 5` inside `VectorizeService.query`: an absent
`topK` and a zero `topK` are both falsy in JS and default to 5. -/
def vectorizeTopK : Option Nat → Nat
  | none => 5
  | some k => if k = 0 then 5 else k

/-- Default object used for the `match.metadata || {}` fallback. -/
def emptyMeta : MemMeta := { content := none, mtype := none, timestamp := none }

/-- The per-match mapping done by `retrieveContext`:
`{content, score, type, timestamp}` read from `result.metadata`. -/
def toRetrieved (m : MatchJson) : RetrievedMemory :=
  let md := m.metadata.getD emptyMeta
  { content := md.content, score := m.score, mtype := md.mtype,
    timestamp := md.timestamp }

/-- Models `RAGService.retrieveContext` composed with `VectorizeService.query`:
embed the query, issue the vector query with `topK || 5`, map the
matches (an empty match list maps to an empty context).  The chat path
passes no modality filter and no claim observes the filter, so it is not
carried in the event. -/
def retrieveContext (query : String) (limit : Nat) (env : RetrEnv) :
    Except String (List RetrievedMemory) × List ExtEv :=
  match env.embed with
  | .error e => (.error e, [.embedCall query])
  | .ok _ =>
    let k := vectorizeTopK (some limit)
    match env.vq with
    | .error e => (.error e, [.embedCall query, .queryCall k])
    | .ok ms => (.ok (ms.map toRetrieved), [.embedCall query, .queryCall k])

/-- Oracle for one `chatWithContext` invocation: retrieval stage, the two
store stages and the completion call. -/
structure ChatEnv where
  retr : RetrEnv
  st1 : StoreEnv
  chat : Except String AIResponse
  st2 : StoreEnv
deriving Repr

/-- Models `RAGService.chatWithContext`: when `useMemory`, retrieve context for
the user message, then store the user message, then call the model, then
store the response text; errors of any stage propagate (the route maps
them to 500).  The assembled system prompt is consumed only by the chat
call and observed by no claim, so it is not reproduced. -/
def chatWithContext (userMessage : String)
    (_history : List (String × String)) (useMemory : Bool) (env : ChatEnv) :
    Except String (String × Option (List RetrievedMemory)) × List ExtEv :=
  if useMemory then
    match retrieveContext userMessage 5 env.retr with
    | (.error e, t1) => (.error e, t1)
    | (.ok ctx, t1) =>
      match storeMemory userMessage env.st1 with
      | (.error e, t2) => (.error e, t1 ++ t2)
      | (.ok _, t2) =>
        match env.chat with
        | .error e => (.error e, t1 ++ t2 ++ [.chatCall])
        | .ok r =>
          let responseText := firstTruthy [r.response, r.resultResponse] "No response"
          match storeMemory responseText env.st2 with
          | (.error e, t3) => (.error e, t1 ++ t2 ++ [.chatCall] ++ t3)
          | (.ok _, t3) =>
            (.ok (responseText, some ctx), t1 ++ t2 ++ [.chatCall] ++ t3)
  else
    match env.chat with
    | .error e => (.error e, [.chatCall])
    | .ok r => (.ok (firstTruthy [r.response, r.resultResponse] "No response", none), [.chatCall])

/-- The fields of an uploaded file that the handlers read. -/
structure MediaFile where
  name : String
  ftype : String
  size : Nat
deriving DecidableEq, Repr

/-- Best-effort upload stage shared by the media routes: attempted only
when `R2_PUBLIC_URL` is configured; a failure is logged and swallowed,
leaving the URL absent. -/
def uploadStage (publicUrl : Option String) (r : Except String String) :
    Option String × List ExtEv :=
  match publicUrl with
  | none => (none, [])
  | some _ =>
    match r with
    | .ok url => (some url, [.upload])
    | .error _ => (none, [.upload])

/-- Chat endpoint request body; `useMemory = none` models an absent JSON
field (the destructuring default `useMemory = true` fires on undefined). -/
structure ChatBody where
  message : String
  history : List (String × String)
  useMemory : Option Bool
deriving Repr

/-- Chat endpoint JSON response. -/
inductive ChatResp
  | ok (response : String) (context : Option (List RetrievedMemory))
  | err (status : Nat) (msg : String)
deriving DecidableEq, Repr

def ChatResp.status : ChatResp → Nat
  | .ok _ _ => 200
  | .err s _ => s

/-- Models `POST /api/chat`: validate the message, lazily build the RAG service
(missing credentials throw, caught as 500), delegate to
`chatWithContext`, map a thrown error to 500. -/
def chatPOST (body : ChatBody) (creds : Bool) (env : ChatEnv) :
    ChatResp × List ExtEv :=
  if body.message = "" then (.err 400 "Message is required", [])
  else if creds = false then (.err 500 "Missing Cloudflare credentials", [])
  else
    match chatWithContext body.message body.history (body.useMemory.getD true) env with
    | (.ok (resp, ctx), evs) => (.ok resp ctx, evs)
    | (.error e, evs) => (.err 500 e, evs)

/-- Image endpoint success body. -/
structure ImageOk where
  response : String
  memorySaved : Bool
  imageUrl : Option String
deriving DecidableEq, Repr

inductive ImageResp
  | ok (body : ImageOk)
  | err (status : Nat) (msg : String)
deriving DecidableEq, Repr

def ImageResp.status : ImageResp → Nat
  | .ok _ => 200
  | .err s _ => s

def ImageResp.getResponse : ImageResp → String
  | .ok b => b.response
  | .err _ _ => ""

def ImageResp.getMemorySaved : ImageResp → Bool
  | .ok b => b.memorySaved
  | .err _ _ => false

/-- Oracle for one image route request. -/
structure ImageEnv where
  upload : Except String String
  analyze : Except String AIResponse
  store : StoreEnv
deriving Repr

/-- Models `POST /api/image`: validate, best-effort upload, describe the image
(a thrown describe call propagates to the catch-all 500), optionally
store the Q/A pair with the store failure swallowed, and answer with
`memorySaved: saveToMemory` verbatim. -/
def imagePOST (image : Option MediaFile) (question : String)
    (saveToMemory : Bool) (creds : Bool) (publicUrl : Option String)
    (env : ImageEnv) : ImageResp × List ExtEv :=
  match image with
  | none => (.err 400 "Missing image or question", [])
  | some _ =>
    if question = "" then (.err 400 "Missing image or question", [])
    else if creds = false then (.err 500 "Missing Cloudflare credentials", [])
    else
      let (imageUrl, evU) := uploadStage publicUrl env.upload
      match env.analyze with
      | .error e => (.err 500 e, evU ++ [.describeCall])
      | .ok r =>
        let answer := firstTruthy [r.response, r.resultResponse] "No response"
        let evS :=
          if saveToMemory then
            (storeMemory ("Image Analysis - Q: " ++ question ++ " A: " ++ answer) env.store).2
          else []
        (.ok { response := answer, memorySaved := saveToMemory, imageUrl := imageUrl },
         evU ++ [.describeCall] ++ evS)

/-- Audio endpoint success body. -/
structure AudioOk where
  transcript : String
  answer : Option String
  audioUrl : Option String
  memorySaved : Bool
  fileSizeMB : String
  transcriptionSkipped : Bool
deriving DecidableEq, Repr

inductive AudioResp
  | ok (body : AudioOk)
  | err (status : Nat) (msg : String)
deriving DecidableEq, Repr

def AudioResp.status : AudioResp → Nat
  | .ok _ => 200
  | .err s _ => s

def AudioResp.getTranscript : AudioResp → String
  | .ok b => b.transcript
  | .err _ _ => ""

def AudioResp.getAnswer : AudioResp → Option String
  | .ok b => b.answer
  | .err _ _ => none

def AudioResp.getMemorySaved : AudioResp → Bool
  | .ok b => b.memorySaved
  | .err _ _ => false

def AudioResp.getSkipped : AudioResp → Bool
  | .ok b => b.transcriptionSkipped
  | .err _ _ => false

/-- Oracle for one audio route request. -/
structure AudioEnv where
  upload : Except String String
  transcribe : Except String AIResponse
  chatQA : Except String AIResponse
  store : StoreEnv
deriving Repr

/-- The size gate of the audio route (named `maxAudioSize` in the source,
`5 * 1024 * 1024` bytes; the surrounding strings still say 2MB). -/
def maxAudioSize : Nat := 5 * 1024 * 1024

/-- Placeholder transcript synthesized when the size gate skips
transcription. -/
def audioSkipTranscript (sizeMB : String) : String :=
  "[Audio file uploaded to R2 successfully, but transcription was skipped because the file size (" ++
    sizeMB ++ "MB) exceeds the 2MB limit. Please use a smaller audio file for transcription.]"

/-- Answer synthesized in the size-gate branch when a question was asked
(JS interpolates `undefined` for an absent URL). -/
def audioSkipAnswer (url sizeMB : String) : String :=
  "The audio file was uploaded to R2 successfully at: " ++ url ++
    "\n\nHowever, it\x27s too large for automatic transcription (" ++ sizeMB ++
    "MB > 2MB limit). Please use an audio file smaller than 2MB for transcription."

/-- Placeholder transcript synthesized when the transcription call throws
or returns an empty text. -/
def audioFailTranscript : String :=
  "Transcription failed. Please try a different audio format or smaller file."

def cannotAnswerText : String :=
  "Cannot answer question because transcription was skipped or failed."

/-- Usability of a transcript as tested by the audio route before the
question-answering call: non-empty and free of the placeholder markers
(the code checks the substrings directly). -/
def usableTranscript (t : String) : Bool :=
  !(decide (t = "")) && !(strIncludes t "failed") && !(strIncludes t "skipped")

/-- The guard of the question-answering call in STEP 4 of the audio route:
`question && transcript && !transcript.includes(..)`. -/
def qaCond (q t : String) : Bool :=
  !(decide (q = "")) && usableTranscript t

/-- The `else if` guard that substitutes the explanatory answer. -/
def elseCond (q t : String) : Bool :=
  !(decide (q = "")) && (strIncludes t "failed" || strIncludes t "skipped")

/-- JS template interpolation of a possibly-undefined value. -/
def jsInterp (o : Option String) : String := o.getD "undefined"

/-- STEP 3 of the audio route (transcribe branch): `transcriptionResponse.text
|| ''` followed by the throw-on-empty that the surrounding catch turns into
the generic failure placeholder. -/
def audioTranscribeResult (env : AudioEnv) : String :=
  match env.transcribe with
  | .error _ => audioFailTranscript
  | .ok r => if r.text.getD "" = "" then audioFailTranscript else r.text.getD ""

/-- STEP 4 of the audio route: the conditional question-answering call and
its `else if` explanatory fallback.  Returns the answer (empty string when
unset) and the events of the step. -/
def audioQA (q t : String) (env : AudioEnv) : String × List ExtEv :=
  if qaCond q t then
    (match env.chatQA with
     | .ok r => firstTruthy [r.response, r.resultResponse] "No answer generated"
     | .error _ => "Failed to generate answer based on transcript",
     [ExtEv.chatCall])
  else if elseCond q t then (cannotAnswerText, ([] : List ExtEv))
  else ("", ([] : List ExtEv))

/-- STEP 2 to STEP 4 of the audio route: size gate, transcription with
its placeholder fallbacks, and the conditional question-answering call.
Returns the transcript, the answer (empty string when unset) and the
events of the stage. -/
def audioGate (a : MediaFile) (q : String) (audioUrl : Option String)
    (env : AudioEnv) : String × String × List ExtEv :=
  if maxAudioSize < a.size then
    (audioSkipTranscript (fmtMB a.size),
     if q = "" then "" else audioSkipAnswer (jsInterp audioUrl) (fmtMB a.size),
     [])
  else
    (audioTranscribeResult env,
     (audioQA q (audioTranscribeResult env) env).1,
     ExtEv.transcribeCall :: (audioQA q (audioTranscribeResult env) env).2)

/-- STEP 5 of the audio route: store the composite text when requested
and a transcript exists; any failure is swallowed. -/
def audioStoreStage (saveToMemory : Bool) (q t ans : String)
    (env : StoreEnv) : List ExtEv :=
  if saveToMemory && !(decide (t = "")) then
    (storeMemory
      (if q = "" then "Audio Transcription: " ++ t
       else "Audio Analysis - Q: " ++ q ++ " A: " ++ ans) env).2
  else []

/-- Models `POST /api/audio`: validate, best-effort upload, size-gated
transcription with placeholder fallbacks, conditional question
answering, swallowed memory persistence, and the response with
`memorySaved: saveToMemory && !!transcript` and
`transcriptionSkipped: audio.size > maxAudioSize`. -/
def audioPOST (audio : Option MediaFile) (q : String) (saveToMemory : Bool)
    (creds : Bool) (publicUrl : Option String) (env : AudioEnv) :
    AudioResp × List ExtEv :=
  match audio with
  | none => (.err 400 "Missing audio file", [])
  | some a =>
    if creds = false then (.err 500 "Missing Cloudflare credentials", [])
    else
      let (audioUrl, evU) := uploadStage publicUrl env.upload
      let g := audioGate a q audioUrl env
      let t := g.1
      let ans := g.2.1
      let evS := audioStoreStage saveToMemory q t ans env.store
      (.ok { transcript := if t = "" then "No transcription available" else t,
             answer := if ans = "" then none else some ans,
             audioUrl := audioUrl,
             memorySaved := saveToMemory && !(decide (t = "")),
             fileSizeMB := fmtMB a.size,
             transcriptionSkipped := decide (maxAudioSize < a.size) },
       evU ++ g.2.2 ++ evS)

/-- One element of the parsed `frames` JSON array. -/
structure Frame where
  timestamp : ℚ
  base64 : String
deriving DecidableEq, Repr

/-- One element of the `frameAnalyses` response array. -/
structure FrameAnalysis where
  timestamp : ℚ
  description : String
deriving DecidableEq, Repr

/-- Video endpoint success body (`audioTranscript` is echoed back). -/
structure VideoOk where
  answer : String
  frameAnalyses : List FrameAnalysis
  audioTranscript : String
  videoUrl : Option String
deriving DecidableEq, Repr

inductive VideoResp
  | ok (body : VideoOk)
  | err (status : Nat) (msg : String)
deriving DecidableEq, Repr

def VideoResp.status : VideoResp → Nat
  | .ok _ => 200
  | .err s _ => s

def VideoResp.getFrames : VideoResp → List FrameAnalysis
  | .ok b => b.frameAnalyses
  | .err _ _ => []

def VideoResp.getAnswer : VideoResp → String
  | .ok b => b.answer
  | .err _ _ => ""

/-- Oracle for one video route request: `frame i` is the outcome of the
describe call for the i-th sampled frame. -/
structure VideoEnv where
  upload : Except String String
  frame : Nat → Except String AIResponse
  chatFinal : Except String AIResponse
  store : StoreEnv

/-- The join of the concurrent frame-description calls (`Promise.all`):
if every call resolves, each frame maps to its timestamped description
with the `No description` fallback for a response carrying no text; if
any call rejects, the whole join rejects.  (`Promise.all` reports the
first rejection in time; this model reports the first in index order,
which no claim distinguishes.) -/
def collectFrames : List (ℚ × Except String AIResponse) →
    Except String (List FrameAnalysis)
  | [] => .ok []
  | (_, .error e) :: _ => .error e
  | (ts, .ok r) :: rest =>
    match collectFrames rest with
    | .error e => .error e
    | .ok l =>
      .ok ({ timestamp := ts,
             description := firstTruthy [r.response, r.resultResponse] "No description" } :: l)

/-- The inputs fed to the frame join: the first five frames paired with
their oracle outcomes. -/
def frameInputs (fs : List Frame) (env : VideoEnv) :
    List (ℚ × Except String AIResponse) :=
  (fs.take 5).enum.map fun p => (p.2.timestamp, env.frame p.1)

/-- Models `POST /api/video`: validate (`!frames || !question`), best-effort
upload when both a video file and a public URL exist, join the at most
five concurrent describe calls, one completion call, then an UNGUARDED
`storeMemory` (STEP 5 has no try/catch of its own, so a store failure
propagates to the catch-all 500). -/
def videoPOST (videoFile : Option MediaFile) (frames : Option (List Frame))
    (audioTranscript : String) (q : String) (creds : Bool)
    (publicUrl : Option String) (env : VideoEnv) : VideoResp × List ExtEv :=
  match frames with
  | none => (.err 400 "Missing frames or question", [])
  | some fs =>
    if q = "" then (.err 400 "Missing frames or question", [])
    else if creds = false then (.err 500 "Missing Cloudflare credentials", [])
    else
      let (videoUrl, evU) :=
        match videoFile with
        | none => (none, [])
        | some _ => uploadStage publicUrl env.upload
      let evF := (fs.take 5).map fun _ => ExtEv.describeCall
      match collectFrames (frameInputs fs env) with
      | .error e => (.err 500 e, evU ++ evF)
      | .ok frameAnalyses =>
        match env.chatFinal with
        | .error e => (.err 500 e, evU ++ evF ++ [.chatCall])
        | .ok r =>
          let answer := firstTruthy [r.response, r.resultResponse] "No answer generated"
          match storeMemory ("Video Analysis - Q: " ++ q ++ " A: " ++ answer) env.store with
          | (.error e, evS) => (.err 500 e, evU ++ evF ++ [.chatCall] ++ evS)
          | (.ok _, evS) =>
            (.ok { answer := answer, frameAnalyses := frameAnalyses,
                   audioTranscript := audioTranscript, videoUrl := videoUrl },
             evU ++ evF ++ [.chatCall] ++ evS)

/-- Memory endpoint response. -/
inductive MemResp
  | ok (id : String)
  | err (status : Nat) (msg : String)
deriving DecidableEq, Repr

def MemResp.status : MemResp → Nat
  | .ok _ => 200
  | .err s _ => s

/-- Models `POST /api/memory`: validate content and type, then store; a thrown
store maps to 500. -/
def memoryPOST (content mtype : String) (creds : Bool) (env : StoreEnv) :
    MemResp × List ExtEv :=
  if content = "" || mtype = "" then
    (.err 400 "Content and type are required", [])
  else if creds = false then (.err 500 "Missing Cloudflare credentials", [])
  else
    match storeMemory content env with
    | (.ok id, evs) => (.ok id, evs)
    | (.error e, evs) => (.err 500 e, evs)

theorem charsContain_nil (l : List Char) : charsContain [] l = true := by
  induction l with
  | nil => rfl
  | cons c cs ih => simp [charsContain, charsStart, ih]

theorem charsStart_append {pat pre : List Char} (rest : List Char)
    (h : charsStart pat pre = true) : charsStart pat (pre ++ rest) = true := by
  induction pat generalizing pre with
  | nil => simp [charsStart]
  | cons a as ih =>
    cases pre with
    | nil => simp [charsStart] at h
    | cons b bs =>
      simp only [charsStart, Bool.and_eq_true] at h
      simp only [List.cons_append, charsStart, Bool.and_eq_true]
      exact ⟨h.1, ih h.2⟩

theorem charsContain_append_left {pat pre : List Char} (rest : List Char)
    (h : charsContain pat pre = true) :
    charsContain pat (pre ++ rest) = true := by
  induction pre with
  | nil =>
    have hp : pat = [] := by
      cases pat with
      | nil => rfl
      | cons c cs => simp [charsContain] at h
    subst hp
    simpa using charsContain_nil rest
  | cons c cs ih =>
    simp only [charsContain, Bool.or_eq_true] at h
    rcases h with h | h
    · simp only [List.cons_append, charsContain, Bool.or_eq_true]
      exact Or.inl (by simpa [List.cons_append] using charsStart_append rest h)
    · simp only [List.cons_append, charsContain, Bool.or_eq_true]
      exact Or.inr (ih h)

theorem strIncludes_append_left (a b pat : String)
    (h : strIncludes a pat = true) : strIncludes (a ++ b) pat = true := by
  unfold strIncludes at h ⊢
  have hd : (a ++ b).toList = a.toList ++ b.toList := by
    simp [String.toList, String.data_append]
  rw [hd]
  exact charsContain_append_left _ h

theorem string_append_ne_left (a b : String) (h : a ≠ "") : a ++ b ≠ "" := by
  intro hc
  apply h
  have hd := congrArg String.data hc
  rw [String.data_append] at hd
  have ha : a.data = [] := (List.append_eq_nil.mp hd).1
  apply String.ext
  rw [ha]

theorem audioSkipTranscript_has_skipped (s : String) :
    strIncludes (audioSkipTranscript s) "skipped" = true := by
  unfold audioSkipTranscript
  apply strIncludes_append_left
  apply strIncludes_append_left
  decide

theorem audioSkipTranscript_ne (s : String) : audioSkipTranscript s ≠ "" := by
  unfold audioSkipTranscript
  apply string_append_ne_left
  apply string_append_ne_left
  decide

theorem audioSkipAnswer_ne (u s : String) : audioSkipAnswer u s ≠ "" := by
  unfold audioSkipAnswer
  apply string_append_ne_left
  apply string_append_ne_left
  apply string_append_ne_left
  apply string_append_ne_left
  decide

theorem audioTranscribeResult_ne (env : AudioEnv) :
    audioTranscribeResult env ≠ "" := by
  unfold audioTranscribeResult
  split
  · decide
  · split
    · decide
    · assumption

theorem audioGate_transcript_ne (a : MediaFile) (q : String)
    (u : Option String) (env : AudioEnv) : (audioGate a q u env).1 ≠ "" := by
  unfold audioGate
  split
  · exact audioSkipTranscript_ne _
  · exact audioTranscribeResult_ne env

theorem mem_uploadStage {e : ExtEv} (pu : Option String)
    (r : Except String String) (h : e ∈ (uploadStage pu r).2) :
    e = ExtEv.upload := by
  unfold uploadStage at h
  rcases pu with _ | u
  · simp at h
  · rcases r with er | url <;> simpa using h

theorem mem_storeMemory {e : ExtEv} {c : String} {env : StoreEnv}
    (h : e ∈ (storeMemory c env).2) :
    (∃ s, e = ExtEv.embedCall s) ∨ ∃ v, e = ExtEv.insertCall v := by
  unfold storeMemory at h
  rcases he : env.embed with er | resp
  · simp only [he] at h
    simp at h
    exact Or.inl ⟨c, h⟩
  · rcases hi : env.insert with er | u <;>
      · simp only [he, hi] at h
        simp at h
        rcases h with h | h
        · exact Or.inl ⟨c, h⟩
        · exact Or.inr ⟨_, h⟩

theorem mem_audioStoreStage {e : ExtEv} {sv : Bool} {q t ans : String}
    {env : StoreEnv} (h : e ∈ audioStoreStage sv q t ans env) :
    (∃ s, e = ExtEv.embedCall s) ∨ ∃ v, e = ExtEv.insertCall v := by
  unfold audioStoreStage at h
  split at h
  · exact mem_storeMemory h
  · simp at h

theorem audioQA_chat_mem (q t : String) (env : AudioEnv) :
    (ExtEv.chatCall ∈ (audioQA q t env).2) ↔ qaCond q t = true := by
  unfold audioQA
  rcases hq : qaCond q t
  · simp only [hq, Bool.false_eq_true, if_false]
    split <;> simp
  · simp only [hq, if_true]
    rcases hc : env.chatQA with er | r <;> simp [hc]

theorem audioGate_chat_mem (a : MediaFile) (q : String) (u : Option String)
    (env : AudioEnv) :
    (ExtEv.chatCall ∈ (audioGate a q u env).2.2) ↔
      qaCond q (audioGate a q u env).1 = true := by
  unfold audioGate
  split
  · simp [qaCond, usableTranscript, audioSkipTranscript_has_skipped]
  · simp only [List.mem_cons]
    rw [audioQA_chat_mem]
    simp

theorem audioGate_answer_unusable (a : MediaFile) (q : String)
    (u : Option String) (env : AudioEnv) (hq : q ≠ "")
    (hu : usableTranscript (audioGate a q u env).1 = false) :
    (audioGate a q u env).2.1 = audioSkipAnswer (jsInterp u) (fmtMB a.size) ∨
      (audioGate a q u env).2.1 = cannotAnswerText := by
  by_cases hs : maxAudioSize < a.size
  · left
    unfold audioGate
    simp [hs, hq]
  · right
    unfold audioGate at hu ⊢
    simp only [hs, if_false] at hu ⊢
    unfold audioQA
    have hne := audioTranscribeResult_ne env
    have hqa : qaCond q (audioTranscribeResult env) = false := by
      simp [qaCond, hu]
    have hfs : strIncludes (audioTranscribeResult env) "failed" = true ∨
        strIncludes (audioTranscribeResult env) "skipped" = true := by
      rcases hf : strIncludes (audioTranscribeResult env) "failed"
      · rcases hsk : strIncludes (audioTranscribeResult env) "skipped"
        · exfalso
          simp [usableTranscript, hne, hf, hsk] at hu
        · exact Or.inr rfl
      · exact Or.inl rfl
    have hel : elseCond q (audioTranscribeResult env) = true := by
      simp [elseCond, hq]
      rcases hfs with h | h
      · exact Or.inl h
      · exact Or.inr h
    simp [hqa, hel]

def isQueryEv : ExtEv → Bool
  | .queryCall _ => true
  | _ => false

def isInsertEv : ExtEv → Bool
  | .insertCall _ => true
  | _ => false

/-- Every vector-index query in the trace happens before every
vector-index insert: from the first insert onward there is no query. -/
def queriesBeforeInserts (t : List ExtEv) : Bool :=
  (t.dropWhile fun e => !(isInsertEv e)).all fun e => !(isQueryEv e)

def countQueries (t : List ExtEv) : Nat :=
  (t.filter fun e => isQueryEv e).length

def countInserts (t : List ExtEv) : Nat :=
  (t.filter fun e => isInsertEv e).length

theorem chatCall_notin_uploadStage (pu : Option String)
    (r : Except String String) : ExtEv.chatCall ∉ (uploadStage pu r).2 := by
  intro h
  exact absurd (mem_uploadStage pu r h) (by simp)

theorem chatCall_notin_storeStage (sv : Bool) (q t ans : String)
    (env : StoreEnv) : ExtEv.chatCall ∉ audioStoreStage sv q t ans env := by
  intro h
  rcases mem_audioStoreStage h with ⟨s, hs⟩ | ⟨v, hv⟩ <;> simp_all

theorem transcribeCall_notin_uploadStage (pu : Option String)
    (r : Except String String) :
    ExtEv.transcribeCall ∉ (uploadStage pu r).2 := by
  intro h
  exact absurd (mem_uploadStage pu r h) (by simp)

theorem transcribeCall_notin_storeStage (sv : Bool) (q t ans : String)
    (env : StoreEnv) :
    ExtEv.transcribeCall ∉ audioStoreStage sv q t ans env := by
  intro h
  rcases mem_audioStoreStage h with ⟨s, hs⟩ | ⟨v, hv⟩ <;> simp_all

/-- Normal form of a credentialed audio request: the route always answers
200 and every response field is determined by the upload and gate stages. -/
theorem audioPOST_ok (a : MediaFile) (q : String) (sv : Bool)
    (pu : Option String) (env : AudioEnv) :
    audioPOST (some a) q sv true pu env =
      (.ok { transcript := (audioGate a q (uploadStage pu env.upload).1 env).1,
             answer :=
               if (audioGate a q (uploadStage pu env.upload).1 env).2.1 = "" then none
               else some (audioGate a q (uploadStage pu env.upload).1 env).2.1,
             audioUrl := (uploadStage pu env.upload).1,
             memorySaved := sv &&
               !(decide ((audioGate a q (uploadStage pu env.upload).1 env).1 = "")),
             fileSizeMB := fmtMB a.size,
             transcriptionSkipped := decide (maxAudioSize < a.size) },
       (uploadStage pu env.upload).2 ++
         (audioGate a q (uploadStage pu env.upload).1 env).2.2 ++
         audioStoreStage sv q (audioGate a q (uploadStage pu env.upload).1 env).1
           (audioGate a q (uploadStage pu env.upload).1 env).2.1 env.store) := by
  simp only [audioPOST]
  rw [if_neg (audioGate_transcript_ne a q (uploadStage pu env.upload).1 env)]
  simp

/-- C5: in `chatWithContext` with `useMemory = true`, the very first
external call is the retrieval embedding of the user message, and every
vector-index query (the context retrieval) occurs before every
vector-index insert (the storing of the user or assistant turn), for
every outcome of every external call: the current turn is stored only
after its context has been retrieved, so a turn never retrieves itself. -/
theorem c5_retrieve_before_store (msg : String)
    (hist : List (String × String)) (env : ChatEnv) :
    (chatWithContext msg hist true env).2.head? = some (ExtEv.embedCall msg) ∧
    queriesBeforeInserts (chatWithContext msg hist true env).2 = true := by
  obtain ⟨⟨re, rq⟩, ⟨s1e, s1i, s1id⟩, ch, ⟨s2e, s2i, s2id⟩⟩ := env
  rcases re with e1 | r1 <;> rcases rq with e2 | ms <;>
    rcases s1e with e3 | r3 <;> rcases s1i with e4 | u4 <;>
    rcases ch with e5 | r5 <;> rcases s2e with e6 | r6 <;> rcases s2i with e7 | u7 <;>
      simp [chatWithContext, retrieveContext, storeMemory, queriesBeforeInserts,
        isQueryEv, isInsertEv, List.dropWhile]

/-- C10: a chat body without a `useMemory` field behaves exactly like one
with `useMemory = true` (the destructuring default), and on the success
path such a request performs one context retrieval and two memory
stores (user turn and assistant turn). -/
theorem c10_useMemory_defaults_true :
    (∀ (msg : String) (hist : List (String × String)) (creds : Bool)
       (env : ChatEnv),
      chatPOST ⟨msg, hist, none⟩ creds env =
        chatPOST ⟨msg, hist, some true⟩ creds env) ∧
    (∀ (msg : String) (hist : List (String × String)) (env : ChatEnv)
       (er : EmbedResp) (ms : List MatchJson) (r3 : EmbedResp)
       (r : AIResponse) (r6 : EmbedResp),
      msg ≠ "" →
      env.retr.embed = .ok er → env.retr.vq = .ok ms →
      env.st1.embed = .ok r3 → env.st1.insert = .ok () →
      env.chat = .ok r → env.st2.embed = .ok r6 → env.st2.insert = .ok () →
      (chatPOST ⟨msg, hist, none⟩ true env).1.status = 200 ∧
      countQueries (chatPOST ⟨msg, hist, none⟩ true env).2 = 1 ∧
      countInserts (chatPOST ⟨msg, hist, none⟩ true env).2 = 2) := by
  constructor
  · intro msg hist creds env
    rfl
  · intro msg hist env er ms r3 r r6 hm h1 h2 h3 h4 h5 h6 h7
    simp [chatPOST, chatWithContext, retrieveContext, storeMemory, hm,
      h1, h2, h3, h4, h5, h6, h7, ChatResp.status, countQueries, countInserts,
      isQueryEv, isInsertEv]

/-- Closed witness for the hypotheses of `c10_useMemory_defaults_true`. -/
theorem c10_useMemory_defaults_true_witness :
    (chatPOST ⟨"hi", [], none⟩ true
        ⟨⟨.ok ⟨some [[1]], none⟩, .ok []⟩,
         ⟨.ok ⟨some [[1]], none⟩, .ok (), "id1"⟩,
         .ok ⟨some "hello", none, none⟩,
         ⟨.ok ⟨some [[1]], none⟩, .ok (), "id2"⟩⟩).1.status = 200 ∧
    countQueries (chatPOST ⟨"hi", [], none⟩ true
        ⟨⟨.ok ⟨some [[1]], none⟩, .ok []⟩,
         ⟨.ok ⟨some [[1]], none⟩, .ok (), "id1"⟩,
         .ok ⟨some "hello", none, none⟩,
         ⟨.ok ⟨some [[1]], none⟩, .ok (), "id2"⟩⟩).2 = 1 ∧
    countInserts (chatPOST ⟨"hi", [], none⟩ true
        ⟨⟨.ok ⟨some [[1]], none⟩, .ok []⟩,
         ⟨.ok ⟨some [[1]], none⟩, .ok (), "id1"⟩,
         .ok ⟨some "hello", none, none⟩,
         ⟨.ok ⟨some [[1]], none⟩, .ok (), "id2"⟩⟩).2 = 2 :=
  (c10_useMemory_defaults_true.2 "hi" [] _ ⟨some [[1]], none⟩ []
    ⟨some [[1]], none⟩ ⟨some "hello", none, none⟩ ⟨some [[1]], none⟩
    (by decide) rfl rfl rfl rfl rfl rfl rfl)

/-- C9: every endpoint rejects a request that is missing a required input
field with status 400 and an empty external-call trace: no upload, no
embedding, no model call, and no state-changing insert is attempted. -/
theorem c9_validation_before_side_effects :
    (∀ (hist : List (String × String)) (um : Option Bool) (creds : Bool)
       (env : ChatEnv),
      (chatPOST ⟨"", hist, um⟩ creds env).1.status = 400 ∧
      (chatPOST ⟨"", hist, um⟩ creds env).2 = []) ∧
    (∀ (img : Option MediaFile) (q : String) (sv creds : Bool)
       (pu : Option String) (env : ImageEnv),
      (img = none ∨ q = "") →
      (imagePOST img q sv creds pu env).1.status = 400 ∧
      (imagePOST img q sv creds pu env).2 = []) ∧
    (∀ (vf : Option MediaFile) (fr : Option (List Frame)) (atr q : String)
       (creds : Bool) (pu : Option String) (env : VideoEnv),
      (fr = none ∨ q = "") →
      (videoPOST vf fr atr q creds pu env).1.status = 400 ∧
      (videoPOST vf fr atr q creds pu env).2 = []) ∧
    (∀ (q : String) (sv creds : Bool) (pu : Option String) (env : AudioEnv),
      (audioPOST none q sv creds pu env).1.status = 400 ∧
      (audioPOST none q sv creds pu env).2 = []) ∧
    (∀ (c mt : String) (creds : Bool) (env : StoreEnv),
      (c = "" ∨ mt = "") →
      (memoryPOST c mt creds env).1.status = 400 ∧
      (memoryPOST c mt creds env).2 = []) := by
  refine ⟨?_, ?_, ?_, ?_, ?_⟩
  · intro hist um creds env
    simp [chatPOST, ChatResp.status]
  · intro img q sv creds pu env h
    rcases h with h | h
    · subst h
      simp [imagePOST, ImageResp.status]
    · subst h
      rcases img with _ | f <;> simp [imagePOST, ImageResp.status]
  · intro vf fr atr q creds pu env h
    rcases h with h | h
    · subst h
      simp [videoPOST, VideoResp.status]
    · subst h
      rcases fr with _ | fs <;> simp [videoPOST, VideoResp.status]
  · intro q sv creds pu env
    simp [audioPOST, AudioResp.status]
  · intro c mt creds env h
    rcases h with h | h <;> subst h <;> simp [memoryPOST, MemResp.status]

/-- Closed witness for the hypotheses of
`c9_validation_before_side_effects`. -/
theorem c9_validation_before_side_effects_witness :
    (imagePOST none "why" true true none
        ⟨.ok "u", .ok ⟨some "d", none, none⟩, ⟨.ok ⟨none, none⟩, .ok (), "i"⟩⟩).1.status = 400 ∧
    (imagePOST none "why" true true none
        ⟨.ok "u", .ok ⟨some "d", none, none⟩, ⟨.ok ⟨none, none⟩, .ok (), "i"⟩⟩).2 = [] ∧
    (videoPOST none none "" "" true none
        ⟨.ok "u", fun _ => .ok ⟨some "d", none, none⟩, .ok ⟨some "a", none, none⟩,
         ⟨.ok ⟨none, none⟩, .ok (), "i"⟩⟩).1.status = 400 ∧
    (videoPOST none none "" "" true none
        ⟨.ok "u", fun _ => .ok ⟨some "d", none, none⟩, .ok ⟨some "a", none, none⟩,
         ⟨.ok ⟨none, none⟩, .ok (), "i"⟩⟩).2 = [] ∧
    (memoryPOST "" "text" true ⟨.ok ⟨none, none⟩, .ok (), "i"⟩).1.status = 400 ∧
    (memoryPOST "" "text" true ⟨.ok ⟨none, none⟩, .ok (), "i"⟩).2 = [] := by
  refine ⟨?a1, ?a2, ?b1, ?b2, ?c1, ?c2⟩
  case a1 => exact (c9_validation_before_side_effects.2.1 none "why" true true none _ (Or.inl rfl)).1
  case a2 => exact (c9_validation_before_side_effects.2.1 none "why" true true none _ (Or.inl rfl)).2
  case b1 => exact (c9_validation_before_side_effects.2.2.1 none none "" "" true none _ (Or.inl rfl)).1
  case b2 => exact (c9_validation_before_side_effects.2.2.1 none none "" "" true none _ (Or.inl rfl)).2
  case c1 => exact (c9_validation_before_side_effects.2.2.2.2 "" "text" true _ (Or.inl rfl)).1
  case c2 => exact (c9_validation_before_side_effects.2.2.2.2 "" "text" true _ (Or.inl rfl)).2

/-- C4: an audio asset of exactly `maxAudioSize` (5*1024*1024) bytes is
transcribed (the transcription call appears in the trace and
`transcriptionSkipped` is false); an asset one byte larger skips
transcription entirely (no transcription call in the trace), returns
the explanatory placeholder transcript and reports
`transcriptionSkipped = true`. -/
theorem c4_audio_size_boundary (a : MediaFile) (q : String) (sv : Bool)
    (pu : Option String) (env : AudioEnv) :
    (a.size = maxAudioSize →
      ExtEv.transcribeCall ∈ (audioPOST (some a) q sv true pu env).2 ∧
      AudioResp.getSkipped (audioPOST (some a) q sv true pu env).1 = false) ∧
    (a.size = maxAudioSize + 1 →
      ExtEv.transcribeCall ∉ (audioPOST (some a) q sv true pu env).2 ∧
      AudioResp.getSkipped (audioPOST (some a) q sv true pu env).1 = true ∧
      AudioResp.getTranscript (audioPOST (some a) q sv true pu env).1 =
        audioSkipTranscript (fmtMB a.size)) := by
  constructor
  · intro h
    have hlt : ¬ (maxAudioSize < a.size) := by omega
    rw [audioPOST_ok]
    constructor
    · simp only [audioGate, hlt, if_false, List.mem_append, List.mem_cons]
      tauto
    · simp [AudioResp.getSkipped, hlt]
  · intro h
    have hlt : maxAudioSize < a.size := by omega
    rw [audioPOST_ok]
    refine ⟨?_, ?_, ?_⟩
    · simp only [audioGate, hlt, if_true, List.mem_append]
      intro hc
      rcases hc with (hc | hc) | hc
      · exact transcribeCall_notin_uploadStage pu env.upload hc
      · simp at hc
      · exact transcribeCall_notin_storeStage _ _ _ _ _ hc
    · simp [AudioResp.getSkipped, hlt]
    · simp [AudioResp.getTranscript, audioGate, hlt]

/-- Closed witness for the hypotheses of `c4_audio_size_boundary`, at the
exact threshold and one byte over it. -/
theorem c4_audio_size_boundary_witness :
    (ExtEv.transcribeCall ∈ (audioPOST (some ⟨"a.mp3", "audio/mp3", 5242880⟩)
        "" false true none
        ⟨.ok "u", .ok ⟨none, none, some "words"⟩, .ok ⟨some "ans", none, none⟩,
         ⟨.ok ⟨none, none⟩, .ok (), "i"⟩⟩).2 ∧
      AudioResp.getSkipped ((audioPOST (some ⟨"a.mp3", "audio/mp3", 5242880⟩)
        "" false true none
        ⟨.ok "u", .ok ⟨none, none, some "words"⟩, .ok ⟨some "ans", none, none⟩,
         ⟨.ok ⟨none, none⟩, .ok (), "i"⟩⟩).1) = false) ∧
    (ExtEv.transcribeCall ∉ (audioPOST (some ⟨"a.mp3", "audio/mp3", 5242881⟩)
        "" false true none
        ⟨.ok "u", .ok ⟨none, none, some "words"⟩, .ok ⟨some "ans", none, none⟩,
         ⟨.ok ⟨none, none⟩, .ok (), "i"⟩⟩).2 ∧
      AudioResp.getSkipped ((audioPOST (some ⟨"a.mp3", "audio/mp3", 5242881⟩)
        "" false true none
        ⟨.ok "u", .ok ⟨none, none, some "words"⟩, .ok ⟨some "ans", none, none⟩,
         ⟨.ok ⟨none, none⟩, .ok (), "i"⟩⟩).1) = true ∧
      AudioResp.getTranscript ((audioPOST (some ⟨"a.mp3", "audio/mp3", 5242881⟩)
        "" false true none
        ⟨.ok "u", .ok ⟨none, none, some "words"⟩, .ok ⟨some "ans", none, none⟩,
         ⟨.ok ⟨none, none⟩, .ok (), "i"⟩⟩).1) =
        audioSkipTranscript (fmtMB 5242881)) :=
  ⟨(c4_audio_size_boundary ⟨"a.mp3", "audio/mp3", 5242880⟩ "" false none _).1 rfl,
   (c4_audio_size_boundary ⟨"a.mp3", "audio/mp3", 5242881⟩ "" false none _).2 rfl⟩

/-- C8: the audio route makes the question-answering completion call if
and only if a question was supplied and the final transcript is usable
(non-empty and free of the `failed` and `skipped` placeholder markers,
the substring patterns the code itself tests); and when a question is
supplied but the transcript is unusable, the returned answer is one of
the two explanatory texts (the size-skip explanation or the
`Cannot answer question because transcription was skipped or failed.`
message). -/
theorem c8_audio_qa_gating (a : MediaFile) (q : String) (sv : Bool)
    (pu : Option String) (env : AudioEnv) :
    ((ExtEv.chatCall ∈ (audioPOST (some a) q sv true pu env).2) ↔
      (q ≠ "" ∧ usableTranscript
        (AudioResp.getTranscript (audioPOST (some a) q sv true pu env).1) = true)) ∧
    (q ≠ "" →
     usableTranscript
        (AudioResp.getTranscript (audioPOST (some a) q sv true pu env).1) = false →
     AudioResp.getAnswer (audioPOST (some a) q sv true pu env).1 =
        some (audioSkipAnswer (jsInterp (uploadStage pu env.upload).1) (fmtMB a.size)) ∨
     AudioResp.getAnswer (audioPOST (some a) q sv true pu env).1 =
        some cannotAnswerText) := by
  rw [audioPOST_ok]
  constructor
  · simp only [AudioResp.getTranscript, List.mem_append]
    constructor
    · intro hc
      have hg : ExtEv.chatCall ∈ (audioGate a q (uploadStage pu env.upload).1 env).2.2 := by
        rcases hc with (hc | hc) | hc
        · exact absurd hc (chatCall_notin_uploadStage pu env.upload)
        · exact hc
        · exact absurd hc (chatCall_notin_storeStage _ _ _ _ _)
      have := (audioGate_chat_mem a q (uploadStage pu env.upload).1 env).mp hg
      simp only [qaCond, Bool.and_eq_true, Bool.not_eq_true', decide_eq_false_iff_not] at this
      exact ⟨this.1, this.2⟩
    · intro ⟨hq, hu⟩
      have hg : qaCond q (audioGate a q (uploadStage pu env.upload).1 env).1 = true := by
        simp only [qaCond, Bool.and_eq_true, Bool.not_eq_true', decide_eq_false_iff_not]
        exact ⟨hq, hu⟩
      exact Or.inl (Or.inr ((audioGate_chat_mem a q (uploadStage pu env.upload).1 env).mpr hg))
  · intro hq hu
    simp only [AudioResp.getTranscript] at hu
    have := audioGate_answer_unusable a q (uploadStage pu env.upload).1 env hq hu
    simp only [AudioResp.getAnswer]
    rcases this with h | h
    · left
      rw [h, if_neg (audioSkipAnswer_ne _ _)]
    · right
      rw [h]
      have : cannotAnswerText ≠ "" := by decide
      rw [if_neg this]

/-- Closed witness for the hypotheses of `c8_audio_qa_gating`: a usable
transcript with a question triggers the completion call, and an
oversized asset with a question yields the explanatory answer. -/
theorem c8_audio_qa_gating_witness :
    ((ExtEv.chatCall ∈ (audioPOST (some ⟨"a.mp3", "audio/mp3", 100⟩)
        "what" false true none
        ⟨.ok "u", .ok ⟨none, none, some "hello world"⟩, .ok ⟨some "ans", none, none⟩,
         ⟨.ok ⟨none, none⟩, .ok (), "i"⟩⟩).2) ↔
      ("what" ≠ "" ∧ usableTranscript
        (AudioResp.getTranscript ((audioPOST (some ⟨"a.mp3", "audio/mp3", 100⟩)
        "what" false true none
        ⟨.ok "u", .ok ⟨none, none, some "hello world"⟩, .ok ⟨some "ans", none, none⟩,
         ⟨.ok ⟨none, none⟩, .ok (), "i"⟩⟩).1)) = true)) ∧
    (AudioResp.getAnswer ((audioPOST (some ⟨"b.mp3", "audio/mp3", 6000000⟩)
        "what" false true none
        ⟨.ok "u", .ok ⟨none, none, some "hello world"⟩, .ok ⟨some "ans", none, none⟩,
         ⟨.ok ⟨none, none⟩, .ok (), "i"⟩⟩).1) =
        some (audioSkipAnswer (jsInterp (uploadStage none (Except.ok "u")).1)
          (fmtMB 6000000)) ∨
     AudioResp.getAnswer ((audioPOST (some ⟨"b.mp3", "audio/mp3", 6000000⟩)
        "what" false true none
        ⟨.ok "u", .ok ⟨none, none, some "hello world"⟩, .ok ⟨some "ans", none, none⟩,
         ⟨.ok ⟨none, none⟩, .ok (), "i"⟩⟩).1) = some cannotAnswerText) :=
  ⟨(c8_audio_qa_gating ⟨"a.mp3", "audio/mp3", 100⟩ "what" false none _).1,
   (c8_audio_qa_gating ⟨"b.mp3", "audio/mp3", 6000000⟩ "what" false none _).2
     (by decide) (by decide)⟩

/-- Video environment in which every primary stage succeeds and only the
memory-persistence insert fails. -/
def videoStoreFailEnv : VideoEnv :=
  { upload := .ok "https://pub/videos/v.mp4",
    frame := fun _ => .ok ⟨some "a frame", none, none⟩,
    chatFinal := .ok ⟨some "the answer", none, none⟩,
    store := ⟨.ok ⟨some [[1, 2]], none⟩,
              .error "Vectorize insert failed: Bad Request", "mem-1"⟩ }

/-- C1 counterexample: in the video pipeline a failure of the
memory-persistence stage IS surfaced as a request-level 500 (STEP 5 of
the video route has no try/catch of its own), so the claim is false for
the video ingestion pipeline. -/
theorem c1_counterexample :
    (videoPOST none (some [⟨0, "frame0"⟩]) "" "what happens" true none
        videoStoreFailEnv).1 =
      .err 500 "Vectorize insert failed: Bad Request" := by
  rfl

/-- C1 amended: a memory-persistence failure is caught and logged in the
image and audio pipelines, whose requests still return their primary
result with status 200 for every store outcome; the video pipeline,
however, surfaces a store failure as a 500 because its store call is not
wrapped in a try/catch. -/
theorem c1_store_failure_policy :
    (∀ (img : MediaFile) (q : String) (sv : Bool) (pu : Option String)
       (env : ImageEnv) (r : AIResponse), q ≠ "" → env.analyze = .ok r →
      (imagePOST (some img) q sv true pu env).1.status = 200 ∧
      ImageResp.getResponse (imagePOST (some img) q sv true pu env).1 =
        firstTruthy [r.response, r.resultResponse] "No response") ∧
    (∀ (a : MediaFile) (q : String) (sv : Bool) (pu : Option String)
       (env : AudioEnv),
      (audioPOST (some a) q sv true pu env).1.status = 200) ∧
    (∀ (vf : Option MediaFile) (fs : List Frame) (atr q : String)
       (pu : Option String) (env : VideoEnv) (fa : List FrameAnalysis)
       (r : AIResponse) (resp : EmbedResp) (e : String),
      q ≠ "" →
      collectFrames (frameInputs fs env) = .ok fa →
      env.chatFinal = .ok r →
      env.store.embed = .ok resp →
      env.store.insert = .error e →
      (videoPOST vf (some fs) atr q true pu env).1.status = 500) := by
  refine ⟨?_, ?_, ?_⟩
  · intro img q sv pu env r hq ha
    simp [imagePOST, hq, ha, ImageResp.status, ImageResp.getResponse]
  · intro a q sv pu env
    rw [audioPOST_ok]
    rfl
  · intro vf fs atr q pu env fa r resp e hq hf hc hse hsi
    simp [videoPOST, hq, hf, hc, storeMemory, hse, hsi, VideoResp.status]

/-- Closed witness for the hypotheses of `c1_store_failure_policy`. -/
theorem c1_store_failure_policy_witness :
    ((imagePOST (some ⟨"c.png", "image/png", 10⟩) "what" true true none
        ⟨.ok "u", .ok ⟨some "a cat", none, none⟩,
         ⟨.ok ⟨some [[1]], none⟩, .error "insert down", "m"⟩⟩).1.status = 200 ∧
      ImageResp.getResponse ((imagePOST (some ⟨"c.png", "image/png", 10⟩)
        "what" true true none
        ⟨.ok "u", .ok ⟨some "a cat", none, none⟩,
         ⟨.ok ⟨some [[1]], none⟩, .error "insert down", "m"⟩⟩).1) =
        firstTruthy [some "a cat", none] "No response") ∧
    (audioPOST (some ⟨"a.mp3", "audio/mp3", 9⟩) "" true true none
        ⟨.ok "u", .ok ⟨none, none, some "words"⟩, .ok ⟨some "x", none, none⟩,
         ⟨.ok ⟨some [[1]], none⟩, .error "insert down", "m"⟩⟩).1.status = 200 ∧
    (videoPOST none (some [⟨0, "frame0"⟩]) "" "what happens" true none
        videoStoreFailEnv).1.status = 500 :=
  ⟨c1_store_failure_policy.1 ⟨"c.png", "image/png", 10⟩ "what" true none
      ⟨.ok "u", .ok ⟨some "a cat", none, none⟩,
       ⟨.ok ⟨some [[1]], none⟩, .error "insert down", "m"⟩⟩
      ⟨some "a cat", none, none⟩ (by decide) rfl,
   c1_store_failure_policy.2.1 ⟨"a.mp3", "audio/mp3", 9⟩ "" true none
      ⟨.ok "u", .ok ⟨none, none, some "words"⟩, .ok ⟨some "x", none, none⟩,
       ⟨.ok ⟨some [[1]], none⟩, .error "insert down", "m"⟩⟩,
   c1_store_failure_policy.2.2 none [⟨0, "frame0"⟩] "" "what happens" none
      videoStoreFailEnv [⟨0, "a frame"⟩] ⟨some "the answer", none, none⟩
      ⟨some [[1, 2]], none⟩ "Vectorize insert failed: Bad Request"
      (by decide) rfl rfl rfl rfl⟩

/-- Image environment in which analysis succeeds and only the
memory-persistence insert fails. -/
def imageStoreFailEnv : ImageEnv :=
  { upload := .error "upload down",
    analyze := .ok ⟨some "a cat", none, none⟩,
    store := ⟨.ok ⟨some [[1]], none⟩, .error "Vectorize insert failed", "m1"⟩ }

/-- C2 counterexample: an image request with `saveToMemory = true` whose
store call fails (the insert event appears in the trace and its oracle
outcome is an error) still answers `memorySaved = true`, because the
route returns `memorySaved: saveToMemory` verbatim. -/
theorem c2_counterexample :
    (imagePOST (some ⟨"c.png", "image/png", 10⟩) "what is it" true true
        (some "https://pub") imageStoreFailEnv).1 =
      .ok ⟨"a cat", true, none⟩ ∧
    (imagePOST (some ⟨"c.png", "image/png", 10⟩) "what is it" true true
        (some "https://pub") imageStoreFailEnv).2 =
      [.upload, .describeCall,
       .embedCall "Image Analysis - Q: what is it A: a cat", .insertCall [1]] := by
  constructor <;> rfl

/-- C2 amended: the `memorySaved` flag reports only that persistence was
requested, independent of the store outcome: the image route returns
`saveToMemory` verbatim and the audio route returns
`saveToMemory && !!transcript`, which equals `saveToMemory` because the
transcript is never empty; a failed store therefore still reports
`memorySaved = true`. -/
theorem c2_memorySaved_reflects_request :
    (∀ (img : MediaFile) (q : String) (sv : Bool) (pu : Option String)
       (env : ImageEnv) (r : AIResponse), q ≠ "" → env.analyze = .ok r →
      ImageResp.getMemorySaved ((imagePOST (some img) q sv true pu env).1) = sv) ∧
    (∀ (a : MediaFile) (q : String) (sv : Bool) (pu : Option String)
       (env : AudioEnv),
      AudioResp.getMemorySaved ((audioPOST (some a) q sv true pu env).1) = sv) := by
  constructor
  · intro img q sv pu env r hq ha
    simp [imagePOST, hq, ha, ImageResp.getMemorySaved]
  · intro a q sv pu env
    rw [audioPOST_ok]
    simp [AudioResp.getMemorySaved,
      audioGate_transcript_ne a q (uploadStage pu env.upload).1 env]

/-- Closed witness for the hypotheses of
`c2_memorySaved_reflects_request`, with a failing store on both routes. -/
theorem c2_memorySaved_reflects_request_witness :
    ImageResp.getMemorySaved ((imagePOST (some ⟨"c.png", "image/png", 10⟩)
        "what is it" true true (some "https://pub") imageStoreFailEnv).1) = true ∧
    AudioResp.getMemorySaved ((audioPOST (some ⟨"a.mp3", "audio/mp3", 9⟩)
        "" true true none
        ⟨.ok "u", .ok ⟨none, none, some "words"⟩, .ok ⟨some "x", none, none⟩,
         ⟨.ok ⟨some [[1]], none⟩, .error "insert down", "m"⟩⟩).1) = true :=
  ⟨c2_memorySaved_reflects_request.1 ⟨"c.png", "image/png", 10⟩ "what is it"
      true (some "https://pub") imageStoreFailEnv ⟨some "a cat", none, none⟩
      (by decide) rfl,
   c2_memorySaved_reflects_request.2 ⟨"a.mp3", "audio/mp3", 9⟩ "" true none
      ⟨.ok "u", .ok ⟨none, none, some "words"⟩, .ok ⟨some "x", none, none⟩,
       ⟨.ok ⟨some [[1]], none⟩, .error "insert down", "m"⟩⟩⟩

/-- Description of one resolved frame call: the response text with the
`No description` fallback.  The error clause is never reached when the
frame join succeeds; it exists only to make the function total. -/
def frameDesc : Except String AIResponse → String
  | .ok r => firstTruthy [r.response, r.resultResponse] "No description"
  | .error _ => "No description"

theorem collectFrames_ok_map {l : List (ℚ × Except String AIResponse)}
    {fa : List FrameAnalysis} (h : collectFrames l = .ok fa) :
    fa = l.map fun p => ⟨p.1, frameDesc p.2⟩ := by
  induction l generalizing fa with
  | nil =>
    simp [collectFrames] at h
    simp [h.symm]
  | cons p rest ih =>
    obtain ⟨ts, pr⟩ := p
    rcases pr with e | r
    · simp [collectFrames] at h
    · simp only [collectFrames] at h
      rcases hr : collectFrames rest with er | l2
      · rw [hr] at h
        simp at h
      · rw [hr] at h
        simp at h
        rw [h.symm]
        simp [frameDesc, ih hr]

theorem collectFrames_error {l : List (ℚ × Except String AIResponse)}
    (h : ∃ p ∈ l, ∃ e, p.2 = .error e) :
    ∃ e, collectFrames l = .error e := by
  induction l with
  | nil => simp at h
  | cons p rest ih =>
    obtain ⟨ts, pr⟩ := p
    rcases pr with e | r
    · exact ⟨e, by simp [collectFrames]⟩
    · rcases h with ⟨p2, hp2, e2, he2⟩
      rcases List.mem_cons.mp hp2 with h1 | h1
      · rw [h1] at he2
        simp at he2
      · obtain ⟨e3, he3⟩ := ih ⟨p2, h1, e2, he2⟩
        exact ⟨e3, by simp [collectFrames, he3]⟩

/-- Video environment in which the third of five frame-description calls
rejects while everything else succeeds. -/
def frameFailEnv : VideoEnv :=
  { upload := .ok "https://pub/videos/v.mp4",
    frame := fun i =>
      if i = 2 then .error "AI request failed: Bad Gateway"
      else .ok ⟨some "frame desc", none, none⟩,
    chatFinal := .ok ⟨some "final answer", none, none⟩,
    store := ⟨.ok ⟨some [[1]], none⟩, .ok (), "m"⟩ }

def fiveFrames : List Frame :=
  [⟨0, "f0"⟩, ⟨1, "f1"⟩, ⟨2, "f2"⟩, ⟨3, "f3"⟩, ⟨4, "f4"⟩]

/-- C3 counterexample: with five frames of which the third rejects, the
video request fails wholesale with a 500 carrying the frame error (the
rejection of `Promise.all` propagates); no per-frame entry and no final
answer are produced, so the claim is false. -/
theorem c3_counterexample :
    (videoPOST none (some fiveFrames) "sound" "what" true none
        frameFailEnv).1 = .err 500 "AI request failed: Bad Gateway" := by
  rfl

/-- C3 amended: only a frame call that RESOLVES without response text
degrades to the `No description` placeholder for that frame alone, with
all sampled frames present in the result and the final answer still
produced; a frame call that REJECTS aborts the whole batch and the
request fails with 500. -/
theorem c3_frame_degradation :
    (∀ (vf : Option MediaFile) (fs : List Frame) (atr q : String)
       (pu : Option String) (env : VideoEnv) (fa : List FrameAnalysis)
       (r : AIResponse) (resp : EmbedResp),
      q ≠ "" →
      collectFrames (frameInputs fs env) = .ok fa →
      env.chatFinal = .ok r →
      env.store.embed = .ok resp →
      env.store.insert = .ok () →
      (videoPOST vf (some fs) atr q true pu env).1.status = 200 ∧
      VideoResp.getFrames ((videoPOST vf (some fs) atr q true pu env).1) =
        (frameInputs fs env).map (fun p => ⟨p.1, frameDesc p.2⟩) ∧
      (VideoResp.getFrames ((videoPOST vf (some fs) atr q true pu env).1)).length =
        (fs.take 5).length ∧
      VideoResp.getAnswer ((videoPOST vf (some fs) atr q true pu env).1) =
        firstTruthy [r.response, r.resultResponse] "No answer generated") ∧
    (∀ (vf : Option MediaFile) (fs : List Frame) (atr q : String)
       (pu : Option String) (env : VideoEnv) (e : String),
      q ≠ "" →
      collectFrames (frameInputs fs env) = .error e →
      (videoPOST vf (some fs) atr q true pu env).1.status = 500) := by
  constructor
  · intro vf fs atr q pu env fa r resp hq hf hc hse hsi
    have hmap := collectFrames_ok_map hf
    refine ⟨?_, ?_, ?_, ?_⟩
    · simp [videoPOST, hq, hf, hc, storeMemory, hse, hsi, VideoResp.status]
    · simp [videoPOST, hq, hf, hc, storeMemory, hse, hsi, VideoResp.getFrames, hmap]
    · simp only [videoPOST, hq, hf, hc, storeMemory, hse, hsi]
      simp [VideoResp.getFrames, hmap, frameInputs]
    · simp [videoPOST, hq, hf, hc, storeMemory, hse, hsi, VideoResp.getAnswer]
  · intro vf fs atr q pu env e hq hf
    simp [videoPOST, hq, hf, VideoResp.status]

/-- Closed witness for the hypotheses of `c3_frame_degradation`: two
frames, the first resolving with no response text (degrading to the
placeholder), the second resolving normally; and the rejecting
counterpart. -/
theorem c3_frame_degradation_witness :
    ((videoPOST none (some [⟨0, "f0"⟩, ⟨1, "f1"⟩]) "" "what" true none
        ⟨.ok "u",
         fun i => if i = 0 then .ok ⟨none, none, none⟩
                  else .ok ⟨some "a dog", none, none⟩,
         .ok ⟨some "final", none, none⟩,
         ⟨.ok ⟨some [[1]], none⟩, .ok (), "m"⟩⟩).1.status = 200 ∧
      VideoResp.getFrames ((videoPOST none (some [⟨0, "f0"⟩, ⟨1, "f1"⟩]) ""
        "what" true none
        ⟨.ok "u",
         fun i => if i = 0 then .ok ⟨none, none, none⟩
                  else .ok ⟨some "a dog", none, none⟩,
         .ok ⟨some "final", none, none⟩,
         ⟨.ok ⟨some [[1]], none⟩, .ok (), "m"⟩⟩).1) =
        (frameInputs [⟨0, "f0"⟩, ⟨1, "f1"⟩]
          ⟨.ok "u",
           fun i => if i = 0 then .ok ⟨none, none, none⟩
                    else .ok ⟨some "a dog", none, none⟩,
           .ok ⟨some "final", none, none⟩,
           ⟨.ok ⟨some [[1]], none⟩, .ok (), "m"⟩⟩).map
          (fun p => ⟨p.1, frameDesc p.2⟩) ∧
      (VideoResp.getFrames ((videoPOST none (some [⟨0, "f0"⟩, ⟨1, "f1"⟩]) ""
        "what" true none
        ⟨.ok "u",
         fun i => if i = 0 then .ok ⟨none, none, none⟩
                  else .ok ⟨some "a dog", none, none⟩,
         .ok ⟨some "final", none, none⟩,
         ⟨.ok ⟨some [[1]], none⟩, .ok (), "m"⟩⟩).1)).length =
        (([⟨0, "f0"⟩, ⟨1, "f1"⟩] : List Frame).take 5).length ∧
      VideoResp.getAnswer ((videoPOST none (some [⟨0, "f0"⟩, ⟨1, "f1"⟩]) ""
        "what" true none
        ⟨.ok "u",
         fun i => if i = 0 then .ok ⟨none, none, none⟩
                  else .ok ⟨some "a dog", none, none⟩,
         .ok ⟨some "final", none, none⟩,
         ⟨.ok ⟨some [[1]], none⟩, .ok (), "m"⟩⟩).1) =
        firstTruthy [some "final", none] "No answer generated") ∧
    (videoPOST none (some fiveFrames) "sound" "what" true none
        frameFailEnv).1.status = 500 :=
  ⟨c3_frame_degradation.1 none [⟨0, "f0"⟩, ⟨1, "f1"⟩] "" "what" none
      ⟨.ok "u",
       fun i => if i = 0 then .ok ⟨none, none, none⟩
                else .ok ⟨some "a dog", none, none⟩,
       .ok ⟨some "final", none, none⟩,
       ⟨.ok ⟨some [[1]], none⟩, .ok (), "m"⟩⟩
      [⟨0, "No description"⟩, ⟨1, "a dog"⟩] ⟨some "final", none, none⟩
      ⟨some [[1]], none⟩ (by decide) (by rfl) rfl rfl rfl,
   c3_frame_degradation.2 none fiveFrames "sound" "what" none frameFailEnv
      "AI request failed: Bad Gateway" (by decide) (by rfl)⟩

/-- Store environment whose embedding call succeeds with a response that
carries no data (the extraction yields the empty vector) and whose
insert succeeds. -/
def emptyEmbedStoreEnv : StoreEnv := ⟨.ok ⟨none, none⟩, .ok (), "mem-7"⟩

/-- C6 counterexample: when the embedding response carries no data the
extraction yields the empty vector, and `storeMemory` succeeds while
inserting that empty (dimension-0) vector into the index: the store does
NOT fail loudly on the mismatched vector. -/
theorem c6_counterexample :
    storeMemory "hello" emptyEmbedStoreEnv =
      (.ok "mem-7", [.embedCall "hello", .insertCall []]) := by
  rfl

/-- C6 amended: `storeMemory` performs no dimensionality validation at
all: whatever vector the embedding extraction yields (including the
empty vector) is passed to the index insert unchanged, and the store
succeeds whenever the embed and insert network calls succeed; any
mismatch rejection is left entirely to the external index. -/
theorem c6_no_dimension_check (content : String) (env : StoreEnv)
    (resp : EmbedResp) (h1 : env.embed = .ok resp)
    (h2 : env.insert = .ok ()) :
    storeMemory content env =
      (.ok env.newId, [.embedCall content, .insertCall (extractEmbedding resp)]) := by
  simp [storeMemory, h1, h2]

/-- Closed witness for the hypotheses of `c6_no_dimension_check`, with a
present-but-empty first embedding vector. -/
theorem c6_no_dimension_check_witness :
    storeMemory "hi" ⟨.ok ⟨some [[]], none⟩, .ok (), "mem-8"⟩ =
      (.ok "mem-8", [.embedCall "hi", .insertCall (extractEmbedding ⟨some [[]], none⟩)]) :=
  c6_no_dimension_check "hi" ⟨.ok ⟨some [[]], none⟩, .ok (), "mem-8"⟩
    ⟨some [[]], none⟩ rfl rfl

/-- A single high-scoring match with full metadata. -/
def oneMatch : MatchJson :=
  ⟨"m1", 9/10, some ⟨some "stored text", some MemT.text, some 111⟩⟩

def oneMatchRetrEnv : RetrEnv := ⟨.ok ⟨some [[1]], none⟩, .ok [oneMatch]⟩

/-- C7 counterexample: with `topK = 0` the `options.topK || 5` fallback
sends 5 to the index (0 is falsy in JS), and a single returned match --
legitimate for the issued query, since 1 ≤ 5 -- yields one retrieved
memory, violating the claimed `at most topK` bound at `topK = 0`. -/
theorem c7_counterexample :
    retrieveContext "q" 0 oneMatchRetrEnv =
      (.ok [toRetrieved oneMatch], [.embedCall "q", .queryCall 5]) ∧
    ¬ ([toRetrieved oneMatch].length ≤ 0) := by
  constructor
  · rfl
  · simp

/-- C7 amended: for every `topK ≥ 1` (the claim held `topK ≥ 0`),
`retrieveContext` returns the matches mapped to
`{content, type, score, timestamp}`, at most `topK` of them and in
non-increasing score order, assuming the external index honours its
contract for the issued query (at most the requested count, sorted);
`topK = 0` is turned into 5 by the `topK || 5` fallback, so up to five
memories may come back; and an empty match list yields an empty context
without throwing, for every `topK`. -/
theorem c7_retrieve_topk (q : String) (limit : Nat) (env : RetrEnv)
    (er : EmbedResp) (ms : List MatchJson)
    (h1 : env.embed = .ok er) (h2 : env.vq = .ok ms)
    (hlen : ms.length ≤ vectorizeTopK (some limit))
    (hsort : List.Sorted (· ≥ ·) (ms.map MatchJson.score)) :
    (retrieveContext q limit env).1 = .ok (ms.map toRetrieved) ∧
    (1 ≤ limit → (ms.map toRetrieved).length ≤ limit) ∧
    List.Sorted (· ≥ ·) ((ms.map toRetrieved).map RetrievedMemory.score) ∧
    (ms = [] → (retrieveContext q limit env).1 = .ok []) := by
  refine ⟨?_, ?_, ?_, ?_⟩
  · simp [retrieveContext, h1, h2]
  · intro hl
    rw [List.length_map]
    have hne : ¬ (limit = 0) := by omega
    simp only [vectorizeTopK, hne, if_false] at hlen
    exact hlen
  · have hcomp : (ms.map toRetrieved).map RetrievedMemory.score =
        ms.map MatchJson.score := by
      rw [List.map_map]
      rfl
    rw [hcomp]
    exact hsort
  · intro h0
    subst h0
    simp [retrieveContext, h1, h2]

/-- Closed witness for the hypotheses of `c7_retrieve_topk`, with two
matches sorted by score and `topK = 2`. -/
theorem c7_retrieve_topk_witness :
    (retrieveContext "q" 2 ⟨.ok ⟨some [[1]], none⟩,
        .ok [oneMatch, ⟨"m2", 1/2, none⟩]⟩).1 =
      .ok ([oneMatch, ⟨"m2", 1/2, none⟩].map toRetrieved) ∧
    (1 ≤ 2 → ([oneMatch, ⟨"m2", 1/2, none⟩].map toRetrieved).length ≤ 2) ∧
    List.Sorted (· ≥ ·)
      (([oneMatch, ⟨"m2", 1/2, none⟩].map toRetrieved).map RetrievedMemory.score) ∧
    ([oneMatch, ⟨"m2", 1/2, none⟩] = ([] : List MatchJson) →
      (retrieveContext "q" 2 ⟨.ok ⟨some [[1]], none⟩,
        .ok [oneMatch, ⟨"m2", 1/2, none⟩]⟩).1 = .ok []) :=
  c7_retrieve_topk "q" 2 ⟨.ok ⟨some [[1]], none⟩, .ok [oneMatch, ⟨"m2", 1/2, none⟩]⟩
    ⟨some [[1]], none⟩ [oneMatch, ⟨"m2", 1/2, none⟩] rfl rfl (by decide)
    (by simp [oneMatch, List.sorted_cons]; norm_num)
